import Mathlib

/-!
Verification of the file-based router core (`src/FileBasedRouter.tsx`).

The development shallowly embeds the route-tree construction algorithm and the
`DataLoaderComponent` state machine of the source file.  File paths are plain
strings; JavaScript string operations (`String.prototype.replace` with a string
pattern, regex suffix strips, the global bracket rewrite, `split('/')`,
`Array.prototype.join('/')`) are modelled character-exactly on `List Char`.
React elements are modelled syntactically by the inductive `Elem`, which
records exactly the JSX structure the source builds.
-/

/-- JavaScript string replace with a string pattern removes only the first
occurrence of the pattern (`s.replace(pat, '')`). -/
def startsList : List Char → List Char → Bool
  | [], _ => true
  | _ :: _, [] => false
  | p :: ps, c :: cs => p = c && startsList ps cs

/-- Remove the first occurrence of `pat` from the character list, scanning left
to right; if no occurrence exists the list is unchanged. -/
def removeFirstOcc (pat : List Char) : List Char → List Char
  | [] => []
  | c :: cs =>
    if startsList pat (c :: cs) then List.drop pat.length (c :: cs)
    else c :: removeFirstOcc pat cs

/-- `endsList pat s` is true when `s` ends with `pat` (regex `pat$`). -/
def endsList (pat s : List Char) : Bool := startsList pat.reverse s.reverse

/-- Strip the suffix `pat` when present (regex `s.replace(/pat$/, '')`). -/
def stripSuffixCs (pat s : List Char) : List Char :=
  if endsList pat s then (List.drop pat.length s.reverse).reverse else s

/-- Worker for the global bracket rewrite `replace(/\[([^\]]+)\]/g, ':$1')`.
The first argument is `none` in normal mode and `some acc` while inside an
open bracket, with `acc` holding the (reversed) characters read so far. -/
def brAux : Option (List Char) → List Char → List Char
  | none, [] => []
  | none, '[' :: rest => brAux (some []) rest
  | none, c :: rest => c :: brAux none rest
  | some acc, [] => '[' :: acc.reverse
  | some acc, ']' :: rest =>
    if acc.isEmpty then '[' :: ']' :: brAux none rest
    else ':' :: acc.reverse ++ brAux none rest
  | some acc, c :: rest => brAux (some (c :: acc)) rest

/-- The global rewrite of every `[name]` (nonempty `name` without `]`) into
`:name`, exactly as the regex `/\[([^\]]+)\]/g` with replacement `:$1`. -/
def bracketRepl (cs : List Char) : List Char := brAux none cs

/-- `BASE_PAGES_PATH` from the source. -/
def BASE_PAGES_PATH : String := "/src/pages"

/-- Character-list core of `pathToRoute`: strip the base prefix (first
occurrence), strip a trailing `.tsx`, rewrite bracket segments, strip a
trailing `/index`, strip a trailing `/`. -/
def pathToRouteCs (cs : List Char) : List Char :=
  stripSuffixCs "/".data
    (stripSuffixCs "/index".data
      (bracketRepl
        (stripSuffixCs ".tsx".data
          (removeFirstOcc BASE_PAGES_PATH.data cs))))

/-- `pathToRoute` from the source (`src/FileBasedRouter.tsx:92`): the chain of
replaces followed by `|| '/'` on the empty result. -/
def pathToRoute (s : String) : String :=
  let r := pathToRouteCs s.data
  if r = [] then "/" else String.mk r

/-- JavaScript `split('/')` on a character list: always returns at least one
(possibly empty) group. -/
def splitOnSlash : List Char → List (List Char)
  | [] => [[]]
  | '/' :: rest => [] :: splitOnSlash rest
  | c :: rest =>
    match splitOnSlash rest with
    | [] => [[c]]
    | g :: gs => (c :: g) :: gs

/-- JavaScript `array.join('/')`. -/
def joinSlash : List String → String
  | [] => ""
  | [s] => s
  | s :: rest => s ++ "/" ++ joinSlash rest

/-- JavaScript runtime values, as far as the bridge's truthiness test needs
them (`if (data)` at `src/FileBasedRouter.tsx:63`). -/
inductive JSValue : Type where
  | null : JSValue
  | undef : JSValue
  | boolean : Bool → JSValue
  | number : Int → JSValue
  | strVal : String → JSValue
  | object : String → JSValue
deriving DecidableEq

/-- JavaScript truthiness of a `JSValue`. -/
def truthy : JSValue → Bool
  | JSValue.null => false
  | JSValue.undef => false
  | JSValue.boolean b => b
  | JSValue.number n => n != 0
  | JSValue.strVal s => s != ""
  | JSValue.object _ => true

/-- Syntactic model of the React elements the source constructs.  `lazyPage p`
is `React.lazy(_pages[p])` (and similarly for the other discovery maps);
`layoutWrap l c` is `<L children={c}/>`; `suspense f c` is
`<React.Suspense fallback={f}>c</React.Suspense>`; `errorBoundary f c` is
`<ErrorBoundary fallback={f}>c</ErrorBoundary>`; `dataLoader c l d` is
`<DataLoaderComponent Component={c} LoadingComponent={l}
dataFunctionImportModule={d}/>`; `compWithData c v` is
`<Component initialData={v}/>`; `errorNotice m` is `<div>{m}</div>`. -/
inductive Elem : Type where
  | outlet : Elem
  | genericLayout : Elem
  | genericLoading : Elem
  | genericErrorPlaceholder : Elem
  | nullElem : Elem
  | lazyPage : String → Elem
  | lazyLayout : String → Elem
  | lazyLoading : String → Elem
  | lazyError : String → Elem
  | layoutWrap : Elem → Elem → Elem
  | errorBoundary : Elem → Elem → Elem
  | suspense : Elem → Elem → Elem
  | dataLoader : Elem → Elem → Option String → Elem
  | compWithData : Elem → JSValue → Elem
  | errorNotice : String → Elem
deriving DecidableEq

/-- The static discovery snapshot: the keys of the five `import.meta.glob`
maps of the source (`_pages` in insertion order; the other four used only
through membership lookups). -/
structure Config : Type where
  pages : List String
  layouts : List String
  loading : List String
  error : List String
  data : List String

/-- A react-router `RouteObject` as the source populates it: an `index` flag,
an optional `path`, an `element`, and an optional `children` array (leaf
routes are pushed without a `children` field, i.e. `none`). -/
inductive RouteObject : Type where
  | mk : Bool → Option String → Elem → Option (List RouteObject) → RouteObject

/-- The `index` field of a route object. -/
def RouteObject.indexOf : RouteObject → Bool
  | RouteObject.mk i _ _ _ => i

/-- The `path` field of a route object. -/
def RouteObject.pathOf : RouteObject → Option String
  | RouteObject.mk _ p _ _ => p

/-- The `element` field of a route object. -/
def RouteObject.elementOf : RouteObject → Elem
  | RouteObject.mk _ _ e _ => e

/-- The `children` field of a route object. -/
def RouteObject.childrenOf : RouteObject → Option (List RouteObject)
  | RouteObject.mk _ _ _ c => c

/-- `currentChildren?.find(child => child.path === carriedPath)` followed by
taking its `children`: `none` when no child matches, otherwise the matched
(first) child's `children` field. -/
def findArr (q : String) : List RouteObject → Option (Option (List RouteObject))
  | [] => none
  | RouteObject.mk _ p _ c :: rs => if p = some q then some c else findArr q rs

/-- Replace the first child whose `path` equals `q` by the same node carrying
`children := some newl` (the in-place mutation of the found node's children
array). -/
def setArr (q : String) (newl : List RouteObject) : List RouteObject → List RouteObject
  | [] => []
  | RouteObject.mk i p e c :: rs =>
    if p = some q then RouteObject.mk i p e (some newl) :: rs
    else RouteObject.mk i p e c :: setArr q newl rs

/-- Element of a freshly synthesized directory node
(`src/FileBasedRouter.tsx:227-256`): the directory's own layout (or the
generic passthrough) around an outlet, inside a suspension boundary whose
fallback is the `LoadingComponent` computed for the current entry, all inside
an error boundary exactly when the directory has its own `error.tsx`. -/
def dirElement (cfg : Config) (carried : String) (lc : Elem) : Elem :=
  let layoutPath := BASE_PAGES_PATH ++ carried ++ "/layout.tsx"
  let errorPath := BASE_PAGES_PATH ++ carried ++ "/error.tsx"
  let layoutC := if cfg.layouts.contains layoutPath then Elem.lazyLayout layoutPath else Elem.genericLayout
  let inner := Elem.suspense lc (Elem.layoutWrap layoutC Elem.outlet)
  if cfg.error.contains errorPath then Elem.errorBoundary (Elem.lazyError errorPath) inner
  else inner

/-- Last segment of a route string (`currentRoute.split('/').pop()`). -/
def lastSegOf (r : String) : String :=
  ((splitOnSlash r.data).map (fun cs => String.mk cs)).getLastD ""

/-- The leaf route object pushed inside the nested-directory branch
(`src/FileBasedRouter.tsx:193-213`): note it never uses the data loader. -/
def nestedLeaf (pageFile currentRoute : String) (lc : Elem) (seg : String) : RouteObject :=
  if seg = "index.tsx" then
    RouteObject.mk true none (Elem.suspense lc (Elem.lazyPage pageFile)) none
  else
    RouteObject.mk false (some (lastSegOf currentRoute))
      (Elem.suspense lc (Elem.lazyPage pageFile)) none

/-- The `for (const routeOrFile of splittedRoute)` walk of the nested branch
(`src/FileBasedRouter.tsx:190-262`).  Segments ending in `.tsx` push a leaf
into the current children list; other segments extend the carried path, look
for an existing child whose `path` equals the carried path (descending into
it, or silently discarding the rest of the walk when the matched child has no
children array), and otherwise append a fresh directory node keyed by
`pathToRoute(segment)`. -/
def walkSegs (cfg : Config) (pageFile currentRoute : String) (lc : Elem) :
    List String → String → List RouteObject → List RouteObject
  | [], _, ch => ch
  | seg :: rest, carried, ch =>
    if endsList ".tsx".data seg.data then
      walkSegs cfg pageFile currentRoute lc rest carried
        (ch ++ [nestedLeaf pageFile currentRoute lc seg])
    else
      let carried' := carried ++ "/" ++ seg
      match findArr carried' ch with
      | some (some l) =>
        setArr carried' (walkSegs cfg pageFile currentRoute lc rest carried' l) ch
      | some none => ch
      | none =>
        ch ++ [RouteObject.mk false (some (pathToRoute seg)) (dirElement cfg carried' lc)
          (some (walkSegs cfg pageFile currentRoute lc rest carried' []))]

/-- Body of the per-entry loop (`src/FileBasedRouter.tsx:127-263`), acting on
the root's children list. -/
def processEntry (cfg : Config) (ch : List RouteObject) (pageFile : String) : List RouteObject :=
  let currentRoute := pathToRoute pageFile
  let splittedRoute :=
    (splitOnSlash (removeFirstOcc (BASE_PAGES_PATH ++ "/").data pageFile.data)).map
      (fun cs => String.mk cs)
  let routeWithoutFile := joinSlash splittedRoute.dropLast
  let loadingFilePath :=
    BASE_PAGES_PATH ++ (if routeWithoutFile ≠ "" then "/" ++ routeWithoutFile else routeWithoutFile) ++ "/loading.tsx"
  let dataFunctionFilePath :=
    BASE_PAGES_PATH ++ (if routeWithoutFile ≠ "" then "/" ++ routeWithoutFile else routeWithoutFile) ++ "/data.ts"
  let isLoadingComponentCreated := cfg.loading.contains loadingFilePath
  let isDataFunctionComponentSet := cfg.data.contains dataFunctionFilePath
  let LoadingComponent :=
    if isLoadingComponentCreated then Elem.lazyLoading loadingFilePath else Elem.genericLoading
  let topElement :=
    Elem.suspense LoadingComponent
      (if isDataFunctionComponentSet then
        Elem.dataLoader (Elem.lazyPage pageFile) LoadingComponent (some dataFunctionFilePath)
      else Elem.lazyPage pageFile)
  if splittedRoute.length = 1 then
    if splittedRoute.headD "" = "index.tsx" then
      ch ++ [RouteObject.mk true none topElement none]
    else
      ch ++ [RouteObject.mk false (some currentRoute) topElement none]
  else
    walkSegs cfg pageFile currentRoute LoadingComponent splittedRoute "" ch

/-- The children list of the root route after folding the discovered pages in
order (the loop mutating `_routes[0].children`). -/
def buildChildren (cfg : Config) (ps : List String) : List RouteObject :=
  ps.foldl (processEntry cfg) []

/-- Root element (`src/FileBasedRouter.tsx:103-125`): the root layout (or the
generic passthrough) around an outlet, inside the root error boundary exactly
when `/src/pages/error.tsx` exists.  Computed from the module-scope constants
`RootLayout` / `hasRootError` / `RootErrorBoundary`, outside the loop. -/
def rootElement (cfg : Config) : Elem :=
  let rootLayout :=
    if cfg.layouts.contains (BASE_PAGES_PATH ++ "/layout.tsx") then
      Elem.lazyLayout (BASE_PAGES_PATH ++ "/layout.tsx")
    else Elem.genericLayout
  if cfg.error.contains (BASE_PAGES_PATH ++ "/error.tsx") then
    Elem.errorBoundary (Elem.lazyError (BASE_PAGES_PATH ++ "/error.tsx"))
      (Elem.layoutWrap rootLayout Elem.outlet)
  else Elem.layoutWrap rootLayout Elem.outlet

/-- `routes()` from the source: the singleton list holding the root route at
path `/` whose children are grown by the per-entry loop. -/
def routes (cfg : Config) : List RouteObject :=
  [RouteObject.mk false (some "/") (rootElement cfg) (some (buildChildren cfg cfg.pages))]

/-- State of one `DataLoaderComponent` mount
(`src/FileBasedRouter.tsx:33-35`): the three `useState` hooks. -/
structure DLState : Type where
  data : JSValue
  loading : Bool
  error : Option String
deriving DecidableEq

/-- Initial hook values: `data = null`, `loading = true`, `error = null`. -/
def initState : DLState := { data := JSValue.null, loading := true, error := none }

/-- Net effect of the `loadData` async function once it settles
(`src/FileBasedRouter.tsx:37-55`).  The argument is the eventual outcome of
the data chain: `none` when `dataFunctionImportModule` is `null` (the body
skips the fetch), `some (ok v)` when the module and data promises resolve to
`v`, and `some (error e)` when either rejects with message `e` (caught by the
`catch`); the `finally` always clears `loading`. -/
def runEffect : Option (Except String JSValue) → DLState → DLState
  | none, s => { s with loading := false }
  | some (Except.ok v), s => { s with data := v, loading := false }
  | some (Except.error e), s => { s with error := some e, loading := false }

/-- Render function of `DataLoaderComponent` (`src/FileBasedRouter.tsx:57-67`):
the loading indicator while `loading`, the inline `<div>Error: {message}</div>`
when `error` is set, the target component with `initialData` when `data` is
truthy, and `null` otherwise. -/
def renderDataLoader (comp lc : Elem) (s : DLState) : Elem :=
  if s.loading then lc
  else
    match s.error with
    | some e => Elem.errorNotice ("Error: " ++ e)
    | none => if truthy s.data then Elem.compWithData comp s.data else Elem.nullElem

mutual
/-- `ExtN old new`: `new` is the same route object as `old` except that
children lists anywhere below may have gained nodes appended at their end. -/
inductive ExtN : RouteObject → RouteObject → Prop where
  | mk {i : Bool} {p : Option String} {e : Elem} {c c' : Option (List RouteObject)} :
      ExtC c c' → ExtN (RouteObject.mk i p e c) (RouteObject.mk i p e c')
/-- `ExtC`: the children-field version of `ExtN`. -/
inductive ExtC : Option (List RouteObject) → Option (List RouteObject) → Prop where
  | undef : ExtC none none
  | arr {l l' : List RouteObject} : ExtL l l' → ExtC (some l) (some l')
/-- `ExtL old new`: every node of `old` reappears at the same position in
`new` (recursively extended), and `new` may carry extra nodes appended after
them — the "children only grow at the end, in place" order invariant. -/
inductive ExtL : List RouteObject → List RouteObject → Prop where
  | nil (l : List RouteObject) : ExtL [] l
  | cons {r r' : RouteObject} {l l' : List RouteObject} :
      ExtN r r' → ExtL l l' → ExtL (r :: l) (r' :: l')
end

mutual
theorem extN_refl : (r : RouteObject) → ExtN r r
  | RouteObject.mk _ _ _ c => ExtN.mk (extC_refl c)
theorem extC_refl : (c : Option (List RouteObject)) → ExtC c c
  | none => ExtC.undef
  | some l => ExtC.arr (extL_refl l)
theorem extL_refl : (l : List RouteObject) → ExtL l l
  | [] => ExtL.nil []
  | r :: rs => ExtL.cons (extN_refl r) (extL_refl rs)
end

mutual
theorem extN_trans : {a b c : RouteObject} → ExtN a b → ExtN b c → ExtN a c
  | _, _, _, ExtN.mk h1, ExtN.mk h2 => ExtN.mk (extC_trans h1 h2)
theorem extC_trans : {x y z : Option (List RouteObject)} → ExtC x y → ExtC y z → ExtC x z
  | _, _, _, ExtC.undef, ExtC.undef => ExtC.undef
  | _, _, _, ExtC.arr h1, ExtC.arr h2 => ExtC.arr (extL_trans h1 h2)
theorem extL_trans : {x y z : List RouteObject} → ExtL x y → ExtL y z → ExtL x z
  | _, _, z, ExtL.nil _, _ => ExtL.nil z
  | _, _, _, ExtL.cons hn hl, ExtL.cons hn' hl' =>
      ExtL.cons (extN_trans hn hn') (extL_trans hl hl')
end

/-- Appending nodes at the end of a children list is an extension. -/
theorem extL_append (l t : List RouteObject) : ExtL l (l ++ t) := by
  induction l with
  | nil => exact ExtL.nil t
  | cons r rs ih => exact ExtL.cons (extN_refl r) ih

/-- Updating the children array of the first matching node with an extension
of its previous content is an extension of the whole list. -/
theorem extL_setArr (q : String) {l newl : List RouteObject} :
    ∀ ch : List RouteObject, findArr q ch = some (some l) → ExtL l newl →
      ExtL ch (setArr q newl ch) := by
  intro ch
  induction ch with
  | nil => intro h; simp [findArr] at h
  | cons r rs ih =>
    intro h hl
    cases r with
    | mk i p e c =>
      by_cases hp : p = some q
      · simp only [findArr, if_pos hp] at h
        simp only [setArr, if_pos hp]
        cases h
        exact ExtL.cons (ExtN.mk (ExtC.arr hl)) (extL_refl rs)
      · simp only [findArr, if_neg hp] at h
        simp only [setArr, if_neg hp]
        exact ExtL.cons (extN_refl _) (ih h hl)

/-- The nested walk only ever appends to children lists or descends. -/
theorem extL_walkSegs (cfg : Config) (pageFile currentRoute : String) (lc : Elem) :
    ∀ (segs : List String) (carried : String) (ch : List RouteObject),
      ExtL ch (walkSegs cfg pageFile currentRoute lc segs carried ch) := by
  intro segs
  induction segs with
  | nil => intro carried ch; exact extL_refl ch
  | cons seg rest ih =>
    intro carried ch
    show ExtL ch (walkSegs cfg pageFile currentRoute lc (seg :: rest) carried ch)
    rw [walkSegs]
    by_cases hts : endsList ".tsx".data seg.data = true
    · rw [if_pos hts]
      exact extL_trans (extL_append ch _) (ih carried _)
    · rw [if_neg hts]
      cases hfa : findArr (carried ++ "/" ++ seg) ch with
      | none => simp only [hfa]; exact extL_append ch _
      | some c =>
        cases c with
        | none => simp only [hfa]; exact extL_refl ch
        | some l => simp only [hfa]; exact extL_setArr _ ch hfa (ih _ l)

/-- One loop iteration only ever appends to children lists or descends. -/
theorem extL_processEntry (cfg : Config) (ch : List RouteObject) (pageFile : String) :
    ExtL ch (processEntry cfg ch pageFile) := by
  simp only [processEntry]
  split
  · split
    · exact extL_append ch _
    · exact extL_append ch _
  · exact extL_walkSegs cfg pageFile _ _ _ "" ch

/-- Folding further entries over a children list extends it. -/
theorem extL_foldl (cfg : Config) :
    ∀ (qs : List String) (ch : List RouteObject),
      ExtL ch (qs.foldl (processEntry cfg) ch) := by
  intro qs
  induction qs with
  | nil => intro ch; exact extL_refl ch
  | cons q qs ih =>
    intro ch
    exact extL_trans (extL_processEntry cfg ch q) (ih (processEntry cfg ch q))

/-- C1: refutation on the code.  For the two entries sharing the directory
prefix `blog`, the builder creates TWO sibling nodes with path `blog`, each
holding only one of the two leaves: the reuse check compares `child.path`
(stored as the bare segment `blog`) against the carried path `/blog`, which
never match, so the dedup branch is dead and a duplicate ancestor node is
created for every further entry under the same directory. -/
theorem c1_duplicate_blog_nodes :
    buildChildren
      { pages := ["/src/pages/blog/index.tsx", "/src/pages/blog/[slug].tsx"],
        layouts := [], loading := [], error := [], data := [] }
      ["/src/pages/blog/index.tsx", "/src/pages/blog/[slug].tsx"] =
      [RouteObject.mk false (some "blog")
        (Elem.suspense Elem.genericLoading (Elem.layoutWrap Elem.genericLayout Elem.outlet))
        (some [RouteObject.mk true none
          (Elem.suspense Elem.genericLoading (Elem.lazyPage "/src/pages/blog/index.tsx")) none]),
       RouteObject.mk false (some "blog")
        (Elem.suspense Elem.genericLoading (Elem.layoutWrap Elem.genericLayout Elem.outlet))
        (some [RouteObject.mk false (some ":slug")
          (Elem.suspense Elem.genericLoading (Elem.lazyPage "/src/pages/blog/[slug].tsx")) none])] := by
  rfl

/-- C2: refutation on the code.  The leaf `a/page.tsx`, whose immediate
directory has the data entry `a/data.ts`, is rendered WITHOUT the
Data-Loading Bridge (the nested branch ignores the computed
`dataFunctionImportModule`), whereas a root-level leaf with a root data
entry IS wrapped in the bridge — so the wrapping claimed for every such
entry only happens for entries directly under the base path. -/
theorem c2_nested_leaf_without_bridge :
    buildChildren
      { pages := ["/src/pages/a/page.tsx"], layouts := [], loading := [],
        error := [], data := ["/src/pages/a/data.ts"] }
      ["/src/pages/a/page.tsx"] =
      [RouteObject.mk false (some "a")
        (Elem.suspense Elem.genericLoading (Elem.layoutWrap Elem.genericLayout Elem.outlet))
        (some [RouteObject.mk false (some "page")
          (Elem.suspense Elem.genericLoading (Elem.lazyPage "/src/pages/a/page.tsx")) none])]
    ∧ Elem.suspense Elem.genericLoading (Elem.lazyPage "/src/pages/a/page.tsx") ≠
        Elem.suspense Elem.genericLoading
          (Elem.dataLoader (Elem.lazyPage "/src/pages/a/page.tsx") Elem.genericLoading
            (some "/src/pages/a/data.ts"))
    ∧ buildChildren
      { pages := ["/src/pages/page.tsx"], layouts := [], loading := [],
        error := [], data := ["/src/pages/data.ts"] }
      ["/src/pages/page.tsx"] =
      [RouteObject.mk false (some "/page")
        (Elem.suspense Elem.genericLoading
          (Elem.dataLoader (Elem.lazyPage "/src/pages/page.tsx") Elem.genericLoading
            (some "/src/pages/data.ts"))) none] :=
  ⟨rfl, by decide, rfl⟩

/-- C3 counterexample: the Path Resolver does not collapse a `page` leaf to
its parent directory — `base/a/b/page.ext` maps to `/a/b/page`, not `/a/b`. -/
theorem c3_counterexample :
    pathToRoute "/src/pages/a/b/page.tsx" = "/a/b/page"
    ∧ pathToRoute "/src/pages/a/b/page.tsx" ≠ "/a/b" :=
  ⟨rfl, by decide⟩

/-- C3 amended: only an `index` leaf collapses to its parent path; a leaf
named `page` keeps its own final segment.  `base/a/b/page.ext` yields
`/a/b/page`; `base/a/index.ext` yields `/a`; `base/[id]/page.ext` yields
`/:id/page`; `base/index.ext` yields `/`. -/
theorem c3_amended :
    pathToRoute "/src/pages/a/b/page.tsx" = "/a/b/page"
    ∧ pathToRoute "/src/pages/a/index.tsx" = "/a"
    ∧ pathToRoute "/src/pages/[id]/page.tsx" = "/:id/page"
    ∧ pathToRoute "/src/pages/index.tsx" = "/" :=
  ⟨rfl, rfl, rfl, rfl⟩

/-- C4 counterexample: the suspension fallback of a synthesized directory
node is NOT that directory's own loading indicator.  Although
`/src/pages/a/loading.tsx` exists, the node synthesized for directory `a`
(while processing `/src/pages/a/b/x.tsx`) uses the generic loading fallback,
because the builder resolves the loading collaborator only for the entry's
immediate directory `a/b`. -/
theorem c4_counterexample :
    buildChildren
      { pages := ["/src/pages/a/b/x.tsx"], layouts := [],
        loading := ["/src/pages/a/loading.tsx"], error := [], data := [] }
      ["/src/pages/a/b/x.tsx"] =
      [RouteObject.mk false (some "a")
        (Elem.suspense Elem.genericLoading (Elem.layoutWrap Elem.genericLayout Elem.outlet))
        (some [RouteObject.mk false (some "b")
          (Elem.suspense Elem.genericLoading (Elem.layoutWrap Elem.genericLayout Elem.outlet))
          (some [RouteObject.mk false (some "x")
            (Elem.suspense Elem.genericLoading (Elem.lazyPage "/src/pages/a/b/x.tsx")) none])])]
    ∧ Elem.genericLoading ≠ Elem.lazyLoading "/src/pages/a/loading.tsx" :=
  ⟨rfl, by decide⟩

/-- C4 amended: a synthesized directory node's element is the directory's own
layout wrapping an outlet, inside a suspension boundary whose fallback is the
loading indicator resolved for the CURRENT ENTRY'S immediate directory (here
`a/b`; the synthesized directory's own indicator, controlled by `hLA`, is
irrelevant), all inside an error boundary exactly when the synthesized
directory has an error entry.  In particular, with `blog/layout.tsx` and
`blog/error.tsx` both present, the `blog` node's element is the error
boundary wrapping (a suspension boundary wrapping) the custom layout wrapping
an outlet, not the generic passthrough. -/
theorem c4_amended (hL hE hLB hLA : Bool) :
    buildChildren
      { pages := ["/src/pages/a/b/x.tsx"],
        layouts := if hL then ["/src/pages/a/layout.tsx"] else [],
        loading := (if hLB then ["/src/pages/a/b/loading.tsx"] else []) ++
          (if hLA then ["/src/pages/a/loading.tsx"] else []),
        error := if hE then ["/src/pages/a/error.tsx"] else [],
        data := [] }
      ["/src/pages/a/b/x.tsx"] =
      [RouteObject.mk false (some "a")
        (if hE then
          Elem.errorBoundary (Elem.lazyError "/src/pages/a/error.tsx")
            (Elem.suspense
              (if hLB then Elem.lazyLoading "/src/pages/a/b/loading.tsx" else Elem.genericLoading)
              (Elem.layoutWrap
                (if hL then Elem.lazyLayout "/src/pages/a/layout.tsx" else Elem.genericLayout)
                Elem.outlet))
        else
          Elem.suspense
            (if hLB then Elem.lazyLoading "/src/pages/a/b/loading.tsx" else Elem.genericLoading)
            (Elem.layoutWrap
              (if hL then Elem.lazyLayout "/src/pages/a/layout.tsx" else Elem.genericLayout)
              Elem.outlet))
        (some [RouteObject.mk false (some "b")
          (Elem.suspense
            (if hLB then Elem.lazyLoading "/src/pages/a/b/loading.tsx" else Elem.genericLoading)
            (Elem.layoutWrap Elem.genericLayout Elem.outlet))
          (some [RouteObject.mk false (some "x")
            (Elem.suspense
              (if hLB then Elem.lazyLoading "/src/pages/a/b/loading.tsx" else Elem.genericLoading)
              (Elem.lazyPage "/src/pages/a/b/x.tsx")) none])])]
    ∧ buildChildren
      { pages := ["/src/pages/blog/index.tsx"],
        layouts := ["/src/pages/blog/layout.tsx"], loading := [],
        error := ["/src/pages/blog/error.tsx"], data := [] }
      ["/src/pages/blog/index.tsx"] =
      [RouteObject.mk false (some "blog")
        (Elem.errorBoundary (Elem.lazyError "/src/pages/blog/error.tsx")
          (Elem.suspense Elem.genericLoading
            (Elem.layoutWrap (Elem.lazyLayout "/src/pages/blog/layout.tsx") Elem.outlet)))
        (some [RouteObject.mk true none
          (Elem.suspense Elem.genericLoading (Elem.lazyPage "/src/pages/blog/index.tsx")) none])]
    ∧ Elem.errorBoundary (Elem.lazyError "/src/pages/blog/error.tsx")
        (Elem.suspense Elem.genericLoading
          (Elem.layoutWrap (Elem.lazyLayout "/src/pages/blog/layout.tsx") Elem.outlet)) ≠
        Elem.suspense Elem.genericLoading (Elem.layoutWrap Elem.genericLayout Elem.outlet) := by
  cases hL <;> cases hE <;> cases hLB <;> cases hLA <;> exact ⟨rfl, rfl, by decide⟩

/-- C5 counterexample: a data function resolving to the falsy value `null`
makes the bridge leave the loading state but render `null`, not the target
component with `initialData = null` — the render guard `if (data)` drops
every falsy resolved value. -/
theorem c5_counterexample :
    (runEffect (some (Except.ok JSValue.null)) initState).loading = false
    ∧ renderDataLoader (Elem.lazyPage "/src/pages/x.tsx") Elem.genericLoading
        (runEffect (some (Except.ok JSValue.null)) initState) = Elem.nullElem
    ∧ Elem.nullElem ≠ Elem.compWithData (Elem.lazyPage "/src/pages/x.tsx") JSValue.null :=
  ⟨rfl, rfl, by decide⟩

/-- C5 amended: for every TRUTHY value `V`, if the data function's promise
resolves to `V` the bridge leaves the loading state and renders the target
component with `initialData = V`. -/
theorem c5_amended (comp lc : Elem) (v : JSValue) (h : truthy v = true) :
    (runEffect (some (Except.ok v)) initState).loading = false
    ∧ renderDataLoader comp lc (runEffect (some (Except.ok v)) initState) =
        Elem.compWithData comp v := by
  refine ⟨rfl, ?_⟩
  simp [renderDataLoader, runEffect, initState, h]

/-- C5 witness: instantiation of the amended theorem at the truthy object
value standing for `{ id: 1 }`. -/
theorem c5_amended_witness :
    truthy (JSValue.object "idRecord") = true
    ∧ ((runEffect (some (Except.ok (JSValue.object "idRecord"))) initState).loading = false
       ∧ renderDataLoader (Elem.lazyPage "/src/pages/a/page.tsx") Elem.genericLoading
           (runEffect (some (Except.ok (JSValue.object "idRecord"))) initState) =
         Elem.compWithData (Elem.lazyPage "/src/pages/a/page.tsx") (JSValue.object "idRecord")) :=
  ⟨rfl, c5_amended (Elem.lazyPage "/src/pages/a/page.tsx") Elem.genericLoading
    (JSValue.object "idRecord") rfl⟩

/-- C6: when the data function rejects with `E`, the bridge renders the
inline `<div>Error: {message}</div>` notice containing `E`'s message, and at
no point of the mount (initial loading render, terminal errored render) does
it render the target component.  Containment at the leaf is expressed by the
render function returning the notice element normally: the rejection is
consumed by the `catch` into local state, so no exceptional outcome exists
that an ancestor error boundary could observe. -/
theorem c6_error_contained (e q : String) (lc : Elem)
    (h : lc = Elem.genericLoading ∨ ∃ s, lc = Elem.lazyLoading s) :
    renderDataLoader (Elem.lazyPage q) lc (runEffect (some (Except.error e)) initState) =
      Elem.errorNotice ("Error: " ++ e)
    ∧ (∀ v, renderDataLoader (Elem.lazyPage q) lc (runEffect (some (Except.error e)) initState) ≠
        Elem.compWithData (Elem.lazyPage q) v)
    ∧ renderDataLoader (Elem.lazyPage q) lc initState = lc
    ∧ (∀ v, renderDataLoader (Elem.lazyPage q) lc initState ≠ Elem.compWithData (Elem.lazyPage q) v)
    ∧ renderDataLoader (Elem.lazyPage q) lc initState ≠ Elem.lazyPage q := by
  have hrender : renderDataLoader (Elem.lazyPage q) lc (runEffect (some (Except.error e)) initState) =
      Elem.errorNotice ("Error: " ++ e) := rfl
  have hinit : renderDataLoader (Elem.lazyPage q) lc initState = lc := rfl
  refine ⟨hrender, ?_, hinit, ?_, ?_⟩
  · intro v
    rw [hrender]
    intro hc
    exact Elem.noConfusion hc
  · intro v
    rw [hinit]
    rcases h with h | ⟨s, h⟩ <;> subst h <;> intro hc <;> exact Elem.noConfusion hc
  · rw [hinit]
    rcases h with h | ⟨s, h⟩ <;> subst h <;> intro hc <;> exact Elem.noConfusion hc

/-- C6 witness: instantiation at the rejection message `boom` with the
generic loading indicator. -/
theorem c6_error_contained_witness :
    (Elem.genericLoading = Elem.genericLoading ∨ ∃ s, Elem.genericLoading = Elem.lazyLoading s)
    ∧ (renderDataLoader (Elem.lazyPage "/src/pages/a/x.tsx") Elem.genericLoading
         (runEffect (some (Except.error "boom")) initState) =
        Elem.errorNotice ("Error: " ++ "boom")
       ∧ (∀ v, renderDataLoader (Elem.lazyPage "/src/pages/a/x.tsx") Elem.genericLoading
           (runEffect (some (Except.error "boom")) initState) ≠
             Elem.compWithData (Elem.lazyPage "/src/pages/a/x.tsx") v)
       ∧ renderDataLoader (Elem.lazyPage "/src/pages/a/x.tsx") Elem.genericLoading initState =
           Elem.genericLoading
       ∧ (∀ v, renderDataLoader (Elem.lazyPage "/src/pages/a/x.tsx") Elem.genericLoading initState ≠
           Elem.compWithData (Elem.lazyPage "/src/pages/a/x.tsx") v)
       ∧ renderDataLoader (Elem.lazyPage "/src/pages/a/x.tsx") Elem.genericLoading initState ≠
           Elem.lazyPage "/src/pages/a/x.tsx") :=
  ⟨Or.inl rfl, c6_error_contained "boom" "/src/pages/a/x.tsx" Elem.genericLoading (Or.inl rfl)⟩

/-- C7 counterexample: with a `null` data function reference the bridge does
NOT render the target component after its initial effect — `data` stays
`null`, so the `if (data)` guard falls through and the bridge renders
`null` (nothing). -/
theorem c7_counterexample :
    renderDataLoader (Elem.lazyPage "/src/pages/x.tsx") Elem.genericLoading
      (runEffect none initState) = Elem.nullElem
    ∧ Elem.nullElem ≠ Elem.lazyPage "/src/pages/x.tsx"
    ∧ Elem.nullElem ≠ Elem.compWithData (Elem.lazyPage "/src/pages/x.tsx") JSValue.null :=
  ⟨rfl, by decide, by decide⟩

/-- C7 amended: given no data function, the bridge renders the loading
indicator during its initial (loading) render and, once the effect has
cleared `loading`, renders nothing (`null`) — not the target component; it
is not equivalent to skipping the bridge. -/
theorem c7_amended (comp lc : Elem) :
    renderDataLoader comp lc (runEffect none initState) = Elem.nullElem
    ∧ renderDataLoader comp lc initState = lc :=
  ⟨rfl, rfl⟩

/-- C8: order preservation.  Discovering further entries (`qs`) only extends
the already-built tree: every children list keeps its existing siblings at
their positions, in discovery order, with new nodes appended at the end
(`ExtL`); and children are not sorted — an input discovered as `b` before `a`
yields root children `/b` before `/a`. -/
theorem c8_insertion_order (cfg : Config) (ps qs : List String) :
    ExtL (buildChildren cfg ps) (buildChildren cfg (ps ++ qs))
    ∧ (buildChildren
        { pages := ["/src/pages/b.tsx", "/src/pages/a.tsx"],
          layouts := [], loading := [], error := [], data := [] }
        ["/src/pages/b.tsx", "/src/pages/a.tsx"]).map RouteObject.pathOf =
      [some "/b", some "/a"] := by
  constructor
  · rw [buildChildren, buildChildren, List.foldl_append]
    exact extL_foldl cfg qs _
  · rfl

/-- C9: the builder always produces a single root node at path `/`, whose
element is the root layout around an outlet wrapped in the root error
boundary exactly when a root error entry exists; the root element is a
function of the layout/error discovery maps only — it does not depend on the
page entries, i.e. the root collaborators are resolved outside the per-entry
loop. -/
theorem c9_root_assembly (cfg : Config) :
    routes cfg =
      [RouteObject.mk false (some "/")
        (if cfg.error.contains "/src/pages/error.tsx" then
          Elem.errorBoundary (Elem.lazyError "/src/pages/error.tsx")
            (Elem.layoutWrap
              (if cfg.layouts.contains "/src/pages/layout.tsx" then
                Elem.lazyLayout "/src/pages/layout.tsx"
              else Elem.genericLayout) Elem.outlet)
        else
          Elem.layoutWrap
            (if cfg.layouts.contains "/src/pages/layout.tsx" then
              Elem.lazyLayout "/src/pages/layout.tsx"
            else Elem.genericLayout) Elem.outlet)
        (some (buildChildren cfg cfg.pages))]
    ∧ ∀ ps : List String, rootElement { cfg with pages := ps } = rootElement cfg :=
  ⟨rfl, fun _ => rfl⟩

/-- C10: a data function resolving to any falsy value (null, undefined, 0,
the empty string, false) leaves the bridge rendering nothing at all after
loading completes — not the target component, not the loading indicator and
not an error notice, but the null element. -/
theorem c10_falsy_renders_nothing (comp lc : Elem) (v : JSValue) (h : truthy v = false) :
    renderDataLoader comp lc (runEffect (some (Except.ok v)) initState) = Elem.nullElem := by
  simp [renderDataLoader, runEffect, initState, h]

/-- C10 witness: instantiation at the falsy resolved value `0`. -/
theorem c10_falsy_witness :
    truthy (JSValue.number 0) = false
    ∧ renderDataLoader (Elem.lazyPage "/src/pages/x.tsx") Elem.genericLoading
        (runEffect (some (Except.ok (JSValue.number 0))) initState) = Elem.nullElem :=
  ⟨by decide, c10_falsy_renders_nothing (Elem.lazyPage "/src/pages/x.tsx")
    Elem.genericLoading (JSValue.number 0) (by decide)⟩

